import Mathlib

/-!
Verification of the hwui deferred-layer texture lifecycle manager
(`libs/hwui/DeferredLayerUpdater.h`) and the paint compatibility shim
(`libs/hwui/hwui/PaintImpl.cpp`).

The inline member functions of `DeferredLayerUpdater` (`setSize`, `setBlend`,
`updateTexImage`, `setTransform`, `getTransform`) and the whole of
`PaintImpl.cpp` are embedded directly from the source. The out-of-line
member functions of `DeferredLayerUpdater` (`updateLayer`, `destroyLayer`,
`onContextDestroyed`, `detachSurfaceTexture`, `ImageSlot::createIfNeeded`,
`ImageSlot::clear`, `ImageSlot::releaseQueueOwnership`) are declared in the
header but their translation unit is not part of this excerpt; those are
modelled from the specification and each such definition says so in its doc
comment.

Resource release is tracked by explicit ghost logs inside the state:
whenever the code would `delete`, `unref` or otherwise release a resource,
the resource's identity is appended to the corresponding ghost log.
"Released exactly once", "no double free" and "not leaked" then become
statements about these logs.

Opaque collaborator objects (SkMatrix, AHardwareBuffer, GrDirectContext,
ASurfaceTexture, SkColorFilter, the SkPaint base subobject, SkFont,
typefaces, loopers, shaders) are modelled by their identities (`Nat`),
since the embedded code only stores, compares, copies and releases them.
-/

/-! ## Paint: legacy Java flags (PaintImpl.cpp lines 127-220) -/

/-- SkFilterQuality as used by `PaintImpl.cpp`: only `kNone_SkFilterQuality`
and `kLow_SkFilterQuality` occur. -/
inductive SkFilterQuality where
  | kNone
  | kLow
deriving DecidableEq, Repr

/-- SkFont::Edging as used by `PaintImpl.cpp`. -/
inductive SkFontEdging where
  | kAlias
  | kAntiAlias
  | kSubpixelAntiAlias
deriving DecidableEq, Repr

/-- The portion of the `Paint` object state read and written by
`Paint::setJavaFlags` / `Paint::getJavaFlags`: the `SkPaint` booleans and
filter quality, the `SkFont` booleans and edging, and the minikin-level
booleans `mStrikeThru`, `mUnderline`, `mDevKern`. -/
structure JavaFlagsState where
  antiAlias : Bool
  dither : Bool
  filterQuality : SkFilterQuality
  embolden : Bool
  linearMetrics : Bool
  subpixel : Bool
  embeddedBitmaps : Bool
  forceAutoHinting : Bool
  edging : SkFontEdging
  mStrikeThru : Bool
  mUnderline : Bool
  mDevKern : Bool
deriving DecidableEq, Repr

/-- flag constant `sAntiAliasFlag` (PaintImpl.cpp line 138). -/
def sAntiAliasFlag : Nat := 0x01
/-- flag constant `sFilterBitmapFlag` (line 139). -/
def sFilterBitmapFlag : Nat := 0x02
/-- flag constant `sDitherFlag` (line 140). -/
def sDitherFlag : Nat := 0x04
/-- flag constant `sFakeBoldFlag` (line 142). -/
def sFakeBoldFlag : Nat := 0x020
/-- flag constant `sLinearMetrics` (line 143). -/
def sLinearMetrics : Nat := 0x040
/-- flag constant `sSubpixelMetrics` (line 144). -/
def sSubpixelMetrics : Nat := 0x080
/-- flag constant `sEmbeddedBitmaps` (line 145). -/
def sEmbeddedBitmaps : Nat := 0x400
/-- flag constant `sForceAutoHinting` (line 146). -/
def sForceAutoHinting : Nat := 0x800
/-- flag constant `sUnderlineFlag` (line 148). -/
def sUnderlineFlag : Nat := 0x08
/-- flag constant `sStrikeThruFlag` (line 149). -/
def sStrikeThruFlag : Nat := 0x10
/-- flag constant `sDevKernFlag` (line 151). -/
def sDevKernFlag : Nat := 0x100

/-- `paintToLegacyFlags` (PaintImpl.cpp lines 153-161): builds the SkPaint
part of the legacy word. `-(int)b & flag` equals `if b then flag else 0`. -/
def paintToLegacyFlags (p : JavaFlagsState) : Nat :=
  let flags : Nat := 0
  let flags := flags ||| (if p.antiAlias then sAntiAliasFlag else 0)
  let flags := flags ||| (if p.dither then sDitherFlag else 0)
  if p.filterQuality ≠ SkFilterQuality.kNone then flags ||| sFilterBitmapFlag
  else flags

/-- `fontToLegacyFlags` (PaintImpl.cpp lines 163-171). -/
def fontToLegacyFlags (p : JavaFlagsState) : Nat :=
  let flags : Nat := 0
  let flags := flags ||| (if p.embolden then sFakeBoldFlag else 0)
  let flags := flags ||| (if p.linearMetrics then sLinearMetrics else 0)
  let flags := flags ||| (if p.subpixel then sSubpixelMetrics else 0)
  let flags := flags ||| (if p.embeddedBitmaps then sEmbeddedBitmaps else 0)
  flags ||| (if p.forceAutoHinting then sForceAutoHinting else 0)

/-- `applyLegacyFlagsToPaint` (PaintImpl.cpp lines 173-182). -/
def applyLegacyFlagsToPaint (flags : Nat) (p : JavaFlagsState) : JavaFlagsState :=
  { p with
    antiAlias := flags &&& sAntiAliasFlag ≠ 0
    dither := flags &&& sDitherFlag ≠ 0
    filterQuality :=
      if flags &&& sFilterBitmapFlag ≠ 0 then SkFilterQuality.kLow
      else SkFilterQuality.kNone }

/-- `applyLegacyFlagsToFont` (PaintImpl.cpp lines 184-196). -/
def applyLegacyFlagsToFont (flags : Nat) (p : JavaFlagsState) : JavaFlagsState :=
  { p with
    embolden := flags &&& sFakeBoldFlag ≠ 0
    linearMetrics := flags &&& sLinearMetrics ≠ 0
    subpixel := flags &&& sSubpixelMetrics ≠ 0
    embeddedBitmaps := flags &&& sEmbeddedBitmaps ≠ 0
    forceAutoHinting := flags &&& sForceAutoHinting ≠ 0
    edging :=
      if flags &&& sAntiAliasFlag ≠ 0 then SkFontEdging.kAntiAlias
      else SkFontEdging.kAlias }

/-- `Paint::getJavaFlags` (PaintImpl.cpp lines 206-212). -/
def getJavaFlags (p : JavaFlagsState) : Nat :=
  let flags := paintToLegacyFlags p ||| fontToLegacyFlags p
  let flags := flags ||| (if p.mStrikeThru then sStrikeThruFlag else 0)
  let flags := flags ||| (if p.mUnderline then sUnderlineFlag else 0)
  flags ||| (if p.mDevKern then sDevKernFlag else 0)

/-- `Paint::setJavaFlags` (PaintImpl.cpp lines 214-220). -/
def setJavaFlags (p : JavaFlagsState) (flags : Nat) : JavaFlagsState :=
  let p := applyLegacyFlagsToPaint flags p
  let p := applyLegacyFlagsToFont flags p
  { p with
    mStrikeThru := flags &&& sStrikeThruFlag ≠ 0
    mUnderline := flags &&& sUnderlineFlag ≠ 0
    mDevKern := flags &&& sDevKernFlag ≠ 0 }

/-- The union of the eleven legacy flag bits that the mapping represents:
0x01, 0x02, 0x04, 0x08, 0x10, 0x20, 0x40, 0x80, 0x100, 0x400, 0x800,
together 0xDFF. Bits outside this mask (for example 0x200) are dropped by
`setJavaFlags` and can never be produced by `getJavaFlags`. -/
def supportedJavaFlagsMask : Nat := 0xDFF

/-- A concrete `JavaFlagsState` (the `Paint::Paint()` defaults) used for
concrete evaluations. -/
def defaultJavaFlagsState : JavaFlagsState where
  antiAlias := false
  dither := false
  filterQuality := SkFilterQuality.kNone
  embolden := false
  linearMetrics := false
  subpixel := false
  embeddedBitmaps := false
  forceAutoHinting := false
  edging := SkFontEdging.kAlias
  mStrikeThru := false
  mUnderline := false
  mDevKern := false

/-! ## Paint: compared state and operator== (PaintImpl.cpp lines 94-105) -/

/-- The `Paint` object as compared by `operator==`: the `SkPaint` base
subobject and the additional fields, each modelled by its identity, plus
the `mShader` field (which `operator==` does not compare). -/
structure Paint where
  skPaintBase : Nat
  mFont : Nat
  mLooper : Option Nat
  mLetterSpacing : Nat
  mWordSpacing : Nat
  mFontFeatureSettings : Nat
  mMinikinLocaleListId : Nat
  mFamilyVariant : Nat
  mHyphenEdit : Nat
  mTypeface : Option Nat
  mAlign : Nat
  mStrikeThru : Bool
  mUnderline : Bool
  mDevKern : Bool
  mShader : Option Nat
deriving DecidableEq, Repr

/-- `operator==(const Paint&, const Paint&)` (PaintImpl.cpp lines 94-105):
compares the `SkPaint` base, `mFont`, `mLooper`, the spacings, the font
feature settings, the locale list id, the family variant, the hyphen edit,
the typeface, the align, and the three booleans. `mShader` is not among
the compared fields. -/
def Paint.eqOp (a b : Paint) : Bool :=
  a.skPaintBase == b.skPaintBase &&
  a.mFont == b.mFont &&
  a.mLooper == b.mLooper &&
  a.mLetterSpacing == b.mLetterSpacing && a.mWordSpacing == b.mWordSpacing &&
  a.mFontFeatureSettings == b.mFontFeatureSettings &&
  a.mMinikinLocaleListId == b.mMinikinLocaleListId &&
  a.mFamilyVariant == b.mFamilyVariant && a.mHyphenEdit == b.mHyphenEdit &&
  a.mTypeface == b.mTypeface && a.mAlign == b.mAlign &&
  a.mStrikeThru == b.mStrikeThru && a.mUnderline == b.mUnderline &&
  a.mDevKern == b.mDevKern

/-- A concrete paint carrying a shader. -/
def paintA : Paint where
  skPaintBase := 0
  mFont := 0
  mLooper := none
  mLetterSpacing := 0
  mWordSpacing := 0
  mFontFeatureSettings := 0
  mMinikinLocaleListId := 0
  mFamilyVariant := 0
  mHyphenEdit := 0
  mTypeface := none
  mAlign := 0
  mStrikeThru := false
  mUnderline := false
  mDevKern := false
  mShader := some 1

/-- The same paint as `paintA` except without a shader. -/
def paintB : Paint := { paintA with mShader := none }

/-! ## DeferredLayerUpdater: data model (DeferredLayerUpdater.h lines 46-158) -/

/-- An `AutoBackendTextureRelease` handle: a reference-counted wrapper
around a GPU texture backing. `id` is its identity, `ctx` the
`GrDirectContext` it was created against. -/
structure TextureHandle where
  id : Nat
  ctx : Nat
deriving DecidableEq, Repr

/-- the `HAL_DATASPACE_UNKNOWN` default dataspace. -/
def HAL_DATASPACE_UNKNOWN : Int := 0

/-- `DeferredLayerUpdater::ImageSlot` (DeferredLayerUpdater.h lines
107-130): per-slot last-seen dataspace (`mDataspace`, initially
`HAL_DATASPACE_UNKNOWN`), buffer identity (`mBuffer`, initially null) and
possibly-null texture handle (`mTextureRelease`, initially null). -/
structure ImageSlot where
  mDataspace : Int := HAL_DATASPACE_UNKNOWN
  mBuffer : Option Nat := none
  mTextureRelease : Option TextureHandle := none
deriving DecidableEq, Repr

/-- Modelled from the spec: the body of
`DeferredLayerUpdater::ImageSlot::createIfNeeded` is only declared in
`DeferredLayerUpdater.h` (line 111); its translation unit is not under
`src/`. Per spec section 4.2/4.3, a new handle is created only when no
cached handle exists, the buffer identity differs, the dataspace differs,
or `forceCreate` is set; otherwise the cached image is returned. On
recreation the existing handle is cleared (released) and the new handle is
bound to the given GPU context. Returns the updated slot, the image
handle handed to the caller, and the list of handles released by the
call. `freshId` is the identity of the newly allocated handle. -/
def ImageSlot.createIfNeeded (s : ImageSlot) (buffer : Nat) (dataspace : Int)
    (forceCreate : Bool) (context : Nat) (freshId : Nat) :
    ImageSlot × TextureHandle × List TextureHandle :=
  match s.mTextureRelease with
  | some h =>
      if s.mBuffer = some buffer ∧ s.mDataspace = dataspace ∧ forceCreate = false then
        (s, h, [])
      else
        (⟨dataspace, some buffer, some ⟨freshId, context⟩⟩, ⟨freshId, context⟩, [h])
  | none => (⟨dataspace, some buffer, some ⟨freshId, context⟩⟩, ⟨freshId, context⟩, [])

/-- Modelled from the spec: the body of
`DeferredLayerUpdater::ImageSlot::clear` (declared at
DeferredLayerUpdater.h line 116) is not under `src/`. Per spec sections
3 and 4.2/4.3 it drops this cache entry's reference to the handle and
must leave the handle field null; clearing an already-empty slot is a
no-op. Returns the updated slot and the handles whose reference was
dropped. -/
def ImageSlot.clear (s : ImageSlot) : ImageSlot × List TextureHandle :=
  match s.mTextureRelease with
  | some h => ({ s with mTextureRelease := none }, [h])
  | none => (s, [])

/-- Modelled from the spec: the body of
`DeferredLayerUpdater::ImageSlot::releaseQueueOwnership` (declared at
DeferredLayerUpdater.h line 114) is not under `src/`. Per spec section
4.3 it is forwarded to the active handle and is a no-op if none exists;
it returns the buffer to the producer queue without destroying the GPU
resource. Returns the handles whose queue ownership was relinquished. -/
def ImageSlot.releaseQueueOwnership (s : ImageSlot) : List TextureHandle :=
  s.mTextureRelease.toList

/-- Lookup in the `std::map<int, ImageSlot> mImageSlots`, embedded as an
association list. -/
def slotLookup (m : List (Int × ImageSlot)) (k : Int) : Option ImageSlot :=
  match m with
  | [] => none
  | p :: rest => if p.1 = k then some p.2 else slotLookup rest k

/-- Insertion/replacement in the `std::map<int, ImageSlot> mImageSlots`,
embedded as an association list. -/
def slotInsert (m : List (Int × ImageSlot)) (k : Int) (v : ImageSlot) :
    List (Int × ImageSlot) :=
  match m with
  | [] => [(k, v)]
  | p :: rest => if p.1 = k then (k, v) :: rest else p :: slotInsert rest k v

/-- The backing render target (`Layer`) as far as this component mutates
it: the bound image and the per-frame parameters `updateLayer` receives
(DeferredLayerUpdater.h lines 93-94). -/
structure LayerState where
  image : Option TextureHandle := none
  forceFilter : Bool := false
  textureTransform : Nat := 0
  cropRect : Nat := 0
deriving DecidableEq, Repr

/-- `DeferredLayerUpdater` state (DeferredLayerUpdater.h lines 136-157)
plus ghost release logs. The member fields mirror the header: the slot
cache `mImageSlots`, the `RenderState` reference, the generic properties
`mWidth`/`mHeight`/`mBlend`/`mColorFilter`/`mAlpha`/`mMode`, the producer
source `mSurfaceTexture`, the exclusively owned `mTransform`, the flags
`mGLContextAttached`/`mUpdateTexImage`, the active slot `mCurrentSlot`
(-1 = none) and the owned backing layer `mLayer` (none once released).
The `ghost...` fields are verification-only logs: they record every
released texture-handle reference, every queue-ownership release, the
number of times the backing layer was released, every deleted transform
matrix and every released producer source. -/
structure DeferredLayerUpdater where
  mImageSlots : List (Int × ImageSlot)
  mRenderState : Nat
  mWidth : Int
  mHeight : Int
  mBlend : Bool
  mColorFilter : Option Nat
  mAlpha : Int
  mMode : Nat
  mSurfaceTexture : Option Nat
  mTransform : Option Nat
  mGLContextAttached : Bool
  mUpdateTexImage : Bool
  mCurrentSlot : Int
  mLayer : Option LayerState
  ghostFreedHandles : List TextureHandle
  ghostQueueReleases : List TextureHandle
  ghostLayerFrees : Nat
  ghostFreedTransforms : List Nat
  ghostFreedSources : List Nat
deriving DecidableEq, Repr

/-- `DeferredLayerUpdater::setSize` (DeferredLayerUpdater.h lines 54-61):
updates `mWidth`/`mHeight` and returns whether the pair changed. -/
def DeferredLayerUpdater.setSize (s : DeferredLayerUpdater) (width height : Int) :
    DeferredLayerUpdater × Bool :=
  if s.mWidth ≠ width ∨ s.mHeight ≠ height then
    ({ s with mWidth := width, mHeight := height }, true)
  else (s, false)

/-- `DeferredLayerUpdater::setBlend` (DeferredLayerUpdater.h lines 66-72). -/
def DeferredLayerUpdater.setBlend (s : DeferredLayerUpdater) (blend : Bool) :
    DeferredLayerUpdater × Bool :=
  if blend ≠ s.mBlend then ({ s with mBlend := blend }, true)
  else (s, false)

/-- `DeferredLayerUpdater::updateTexImage` (DeferredLayerUpdater.h line 76):
`mUpdateTexImage = true`. -/
def DeferredLayerUpdater.updateTexImage (s : DeferredLayerUpdater) :
    DeferredLayerUpdater :=
  { s with mUpdateTexImage := true }

/-- `DeferredLayerUpdater::setTransform` (DeferredLayerUpdater.h lines
78-81): `delete mTransform; mTransform = matrix ? new SkMatrix(*matrix) :
nullptr;`. The deleted previous matrix (if any) is appended to the ghost
log; the stored value is the copy of the argument. -/
def DeferredLayerUpdater.setTransform (s : DeferredLayerUpdater)
    (matrix : Option Nat) : DeferredLayerUpdater :=
  { s with
    mTransform := matrix
    ghostFreedTransforms := s.ghostFreedTransforms ++ s.mTransform.toList }

/-- `DeferredLayerUpdater::getTransform` (DeferredLayerUpdater.h line 83). -/
def DeferredLayerUpdater.getTransform (s : DeferredLayerUpdater) : Option Nat :=
  s.mTransform

/-- Modelled from the spec: the body of
`DeferredLayerUpdater::updateLayer` is only declared in
`DeferredLayerUpdater.h` (lines 93-94); its translation unit is not under
`src/`. Per spec section 4.4, when the pending-update flag is set the
call resolves the producer's current slot through the slot cache
(`createIfNeeded`), binds the resulting image together with
`forceFilter`, the texture transform and the crop rectangle onto the
backing render target, records the active slot, and clears
`mUpdateTexImage`; when the flag is clear the call is a no-op. A slot id
the cache has never seen is treated as "no cached entry" (spec section
7). The second component of the result counts the cache resolutions
performed (0 or 1). `frameSlot`/`frameBuffer`/`frameDataspace` are the
producer-supplied frame data, `context` the GPU context and `freshId` the
identity for a newly created handle. -/
def DeferredLayerUpdater.updateLayer (s : DeferredLayerUpdater) (forceFilter : Bool)
    (textureTransform : Nat) (cropRect : Nat) (frameSlot : Int) (frameBuffer : Nat)
    (frameDataspace : Int) (context : Nat) (freshId : Nat) :
    DeferredLayerUpdater × Nat :=
  if s.mUpdateTexImage then
    let slot := (slotLookup s.mImageSlots frameSlot).getD {}
    let r := slot.createIfNeeded frameBuffer frameDataspace false context freshId
    ({ s with
        mUpdateTexImage := false
        mCurrentSlot := frameSlot
        mImageSlots := slotInsert s.mImageSlots frameSlot r.1
        mLayer := s.mLayer.map fun L =>
          { L with
            image := some r.2.1
            forceFilter := forceFilter
            textureTransform := textureTransform
            cropRect := cropRect }
        ghostFreedHandles := s.ghostFreedHandles ++ r.2.2 }, 1)
  else (s, 0)

/-- Modelled from the spec: the body of
`DeferredLayerUpdater::destroyLayer` is only declared in
`DeferredLayerUpdater.h` (line 96); its translation unit is not under
`src/`. Per spec section 4.4 it clears every slot-cache entry and
releases the backing render target exactly once (a second call finds the
layer already gone and the cache already empty, so it frees nothing). -/
def DeferredLayerUpdater.destroyLayer (s : DeferredLayerUpdater) :
    DeferredLayerUpdater :=
  { s with
    mImageSlots := []
    mLayer := none
    ghostFreedHandles :=
      s.ghostFreedHandles ++ s.mImageSlots.filterMap fun p => p.2.mTextureRelease
    ghostLayerFrees := s.ghostLayerFrees + (if s.mLayer.isSome then 1 else 0) }

/-- Modelled from the spec: the body of
`DeferredLayerUpdater::onContextDestroyed` is only declared in
`DeferredLayerUpdater.h` (line 99); its translation unit is not under
`src/`. Per spec section 4.4 it releases all slot-cache entries and the
backing render target without issuing further GPU calls; the set of
resources released is the same as on the normal teardown path, so the
state transition coincides with `destroyLayer` in this embedding (which
does not model individual GPU calls). -/
def DeferredLayerUpdater.onContextDestroyed (s : DeferredLayerUpdater) :
    DeferredLayerUpdater :=
  { s with
    mImageSlots := []
    mLayer := none
    ghostFreedHandles :=
      s.ghostFreedHandles ++ s.mImageSlots.filterMap fun p => p.2.mTextureRelease
    ghostLayerFrees := s.ghostLayerFrees + (if s.mLayer.isSome then 1 else 0) }

/-- Modelled from the spec: the body of
`DeferredLayerUpdater::detachSurfaceTexture` is only declared in
`DeferredLayerUpdater.h` (line 91); its translation unit is not under
`src/`. Per spec section 4.4 it releases the producer source and, for
the currently active slot (none when `mCurrentSlot` is -1), calls
`releaseQueueOwnership` then `clear`, so the last frame's GPU resource
stays valid for any in-flight render while the producer-queue
entanglement is severed. -/
def DeferredLayerUpdater.detachSurfaceTexture (s : DeferredLayerUpdater) :
    DeferredLayerUpdater :=
  if s.mCurrentSlot = -1 then
    { s with
      mSurfaceTexture := none
      ghostFreedSources := s.ghostFreedSources ++ s.mSurfaceTexture.toList }
  else
    match slotLookup s.mImageSlots s.mCurrentSlot with
    | none =>
        { s with
          mSurfaceTexture := none
          ghostFreedSources := s.ghostFreedSources ++ s.mSurfaceTexture.toList }
    | some sl =>
        { s with
          mSurfaceTexture := none
          mImageSlots := slotInsert s.mImageSlots s.mCurrentSlot (sl.clear).1
          ghostQueueReleases := s.ghostQueueReleases ++ sl.releaseQueueOwnership
          ghostFreedHandles := s.ghostFreedHandles ++ (sl.clear).2
          ghostFreedSources := s.ghostFreedSources ++ s.mSurfaceTexture.toList }

/-- A concrete slot-cache entry holding buffer 5 with dataspace 1 and a
live texture handle (id 7, bound to context 3), used for witnesses. -/
def slA : ImageSlot where
  mDataspace := 1
  mBuffer := some 5
  mTextureRelease := some ⟨7, 3⟩

/-- A concrete updater state used for witnesses. -/
def dlu0 : DeferredLayerUpdater where
  mImageSlots := [(0, slA)]
  mRenderState := 0
  mWidth := 0
  mHeight := 0
  mBlend := false
  mColorFilter := none
  mAlpha := 255
  mMode := 3
  mSurfaceTexture := some 2
  mTransform := none
  mGLContextAttached := false
  mUpdateTexImage := false
  mCurrentSlot := -1
  mLayer := some {}
  ghostFreedHandles := []
  ghostQueueReleases := []
  ghostLayerFrees := 0
  ghostFreedTransforms := []
  ghostFreedSources := []

/-! ## Helper lemmas -/

/-- Helper: `&&&` distributes over `|||` on `Nat`. -/
theorem natAndOrDistribLeft (a b c : Nat) : a &&& (b ||| c) = a &&& b ||| a &&& c := by
  apply Nat.eq_of_testBit_eq
  intro i
  simp [Nat.testBit_and, Nat.testBit_or, Bool.and_or_distrib_left]

/-- Helper: the `-(int)b & flag` idiom produces exactly the masked bit. -/
theorem ifAndTwoPow (f i : Nat) : (if f &&& 2 ^ i ≠ 0 then 2 ^ i else 0) = f &&& 2 ^ i := by
  rw [Nat.and_two_pow]
  cases h : f.testBit i <;> simp [Nat.pos_iff_ne_zero]

/-- Helper: `ifAndTwoPow` stated for a flag constant given as a literal. -/
theorem ifAndFlag (f c i : Nat) (hc : c = 2 ^ i) :
    (if f &&& c ≠ 0 then c else 0) = f &&& c := by
  subst hc
  exact ifAndTwoPow f i

/-- Helper: the filter-quality round trip (`setFilterQuality` then
`getFilterQuality() != kNone`) reduces to the plain bit test. -/
theorem filterIfEq (c : Prop) [Decidable c] (x y : Nat) :
    (if (if c then SkFilterQuality.kLow else SkFilterQuality.kNone) ≠ SkFilterQuality.kNone
       then x ||| y else x)
      = x ||| (if c then y else 0) := by
  by_cases h : c <;> simp [h]

/-- Helper: `setJavaFlags` then `getJavaFlags` yields the input word masked
to the eleven supported legacy bits, for every starting paint state. -/
theorem javaFlagsRoundTripMasked (p : JavaFlagsState) (f : Nat) :
    getJavaFlags (setJavaFlags p f) = f &&& supportedJavaFlagsMask := by
  unfold getJavaFlags setJavaFlags applyLegacyFlagsToPaint applyLegacyFlagsToFont
    paintToLegacyFlags fontToLegacyFlags supportedJavaFlagsMask
  unfold sAntiAliasFlag sFilterBitmapFlag sDitherFlag sFakeBoldFlag sLinearMetrics
    sSubpixelMetrics sEmbeddedBitmaps sForceAutoHinting sUnderlineFlag sStrikeThruFlag
    sDevKernFlag
  simp only [decide_eq_true_eq, Nat.zero_or]
  rw [filterIfEq]
  rw [ifAndFlag f 1 0 rfl, ifAndFlag f 4 2 rfl, ifAndFlag f 2 1 rfl,
      ifAndFlag f 32 5 rfl, ifAndFlag f 64 6 rfl, ifAndFlag f 128 7 rfl,
      ifAndFlag f 1024 10 rfl, ifAndFlag f 2048 11 rfl,
      ifAndFlag f 16 4 rfl, ifAndFlag f 8 3 rfl, ifAndFlag f 256 8 rfl]
  simp only [← natAndOrDistribLeft]
  congr 1

/-- Helper: `updateTexImage` is a set-true of `mUpdateTexImage`, so running
it twice equals running it once. -/
theorem updateTexImage_twice (s : DeferredLayerUpdater) :
    s.updateTexImage.updateTexImage = s.updateTexImage := rfl

/-- Helper: any positive number of consecutive `updateTexImage` calls
collapses to a single one. -/
theorem updateTexImage_iterate (n : Nat) (s : DeferredLayerUpdater) (h : 1 ≤ n) :
    DeferredLayerUpdater.updateTexImage^[n] s = s.updateTexImage := by
  induction n with
  | zero => omega
  | succ n ih =>
    rcases Nat.eq_or_lt_of_le h with h1 | h1
    · rw [← h1]
      rfl
    · rw [Function.iterate_succ_apply', ih (by omega), updateTexImage_twice]

/-- Helper: `ImageSlot::clear` leaves the handle field null. -/
theorem clear_fst_mTextureRelease (sl : ImageSlot) :
    (sl.clear).1.mTextureRelease = none := by
  cases h : sl.mTextureRelease <;> simp [ImageSlot.clear, h]

/-- Helper: clearing an already-empty slot is a no-op and releases nothing. -/
theorem clear_of_none (sl : ImageSlot) (h : sl.mTextureRelease = none) :
    sl.clear = (sl, []) := by
  simp [ImageSlot.clear, h]

/-- Helper: `releaseQueueOwnership` on an empty slot releases nothing. -/
theorem releaseQueueOwnership_of_none (sl : ImageSlot) (h : sl.mTextureRelease = none) :
    sl.releaseQueueOwnership = [] := by
  simp [ImageSlot.releaseQueueOwnership, h]

/-- Helper: lookup after insertion at the same key. -/
theorem slotLookup_slotInsert_self (m : List (Int × ImageSlot)) (k : Int) (v : ImageSlot) :
    slotLookup (slotInsert m k v) k = some v := by
  induction m with
  | nil => simp [slotInsert, slotLookup]
  | cons p rest ih =>
    by_cases h : p.1 = k
    · simp [slotInsert, slotLookup, h]
    · simp [slotInsert, slotLookup, h, ih]

/-- Helper: inserting twice at the same key keeps only the second value. -/
theorem slotInsert_slotInsert (m : List (Int × ImageSlot)) (k : Int) (v w : ImageSlot) :
    slotInsert (slotInsert m k v) k w = slotInsert m k w := by
  induction m with
  | nil => simp [slotInsert]
  | cons p rest ih =>
    by_cases h : p.1 = k
    · simp [slotInsert, h]
    · simp [slotInsert, h, ih]

/-- Helper: after `createIfNeeded` the slot records the requested buffer as
its last-seen buffer identity. -/
theorem createIfNeeded_fst_mBuffer (sl : ImageSlot) (b : Nat) (d : Int) (f : Bool)
    (c fid : Nat) : (sl.createIfNeeded b d f c fid).1.mBuffer = some b := by
  cases hs : sl.mTextureRelease with
  | none => simp [ImageSlot.createIfNeeded, hs]
  | some h0 =>
    by_cases hc : sl.mBuffer = some b ∧ sl.mDataspace = d ∧ f = false
    · simp [ImageSlot.createIfNeeded, hs, hc, hc.1]
    · simp [ImageSlot.createIfNeeded, hs, hc]

/-! ## Claim theorems -/

/-- Claim C1: for every N >= 1, calling `updateTexImage()` N times followed
by one `updateLayer` call results in exactly one cache resolution (second
component 1) reflecting the latest producer buffer (the frame's slot entry
records that buffer), and clears the pending-update flag `mUpdateTexImage`
so that a subsequent `updateLayer` without an intervening
`updateTexImage()` is a no-op (returns the unchanged state and zero
resolutions). -/
theorem updateTexImage_then_updateLayer_once
    (s : DeferredLayerUpdater) (N : Nat) (hN : 1 ≤ N)
    (ff : Bool) (ttf cr : Nat) (fs : Int) (fb : Nat) (fd : Int) (c fid : Nat)
    (ff2 : Bool) (ttf2 cr2 : Nat) (fs2 : Int) (fb2 : Nat) (fd2 : Int) (c2 fid2 : Nat) :
    ((DeferredLayerUpdater.updateTexImage^[N] s).updateLayer ff ttf cr fs fb fd c fid).2
      = 1 ∧
    (slotLookup
        ((DeferredLayerUpdater.updateTexImage^[N] s).updateLayer
            ff ttf cr fs fb fd c fid).1.mImageSlots
        fs).map ImageSlot.mBuffer = some (some fb) ∧
    ((DeferredLayerUpdater.updateTexImage^[N] s).updateLayer
        ff ttf cr fs fb fd c fid).1.mUpdateTexImage = false ∧
    ((DeferredLayerUpdater.updateTexImage^[N] s).updateLayer
        ff ttf cr fs fb fd c fid).1.updateLayer ff2 ttf2 cr2 fs2 fb2 fd2 c2 fid2
      = (((DeferredLayerUpdater.updateTexImage^[N] s).updateLayer
            ff ttf cr fs fb fd c fid).1, 0) := by
  rw [updateTexImage_iterate N s hN]
  refine ⟨?_, ?_, ?_, ?_⟩
  · simp [DeferredLayerUpdater.updateLayer, DeferredLayerUpdater.updateTexImage]
  · simp [DeferredLayerUpdater.updateLayer, DeferredLayerUpdater.updateTexImage,
      slotLookup_slotInsert_self, createIfNeeded_fst_mBuffer]
  · simp [DeferredLayerUpdater.updateLayer, DeferredLayerUpdater.updateTexImage]
  · simp [DeferredLayerUpdater.updateLayer, DeferredLayerUpdater.updateTexImage]

/-- Witness for C1: concrete run with N = 2 on `dlu0`. -/
theorem updateTexImage_then_updateLayer_once_witness :
    1 ≤ 2 ∧
    (((DeferredLayerUpdater.updateTexImage^[2] dlu0).updateLayer true 11 12 0 5 1 3 8).2
       = 1 ∧
     (slotLookup
         ((DeferredLayerUpdater.updateTexImage^[2] dlu0).updateLayer
             true 11 12 0 5 1 3 8).1.mImageSlots
         0).map ImageSlot.mBuffer = some (some 5) ∧
     ((DeferredLayerUpdater.updateTexImage^[2] dlu0).updateLayer
         true 11 12 0 5 1 3 8).1.mUpdateTexImage = false ∧
     ((DeferredLayerUpdater.updateTexImage^[2] dlu0).updateLayer
         true 11 12 0 5 1 3 8).1.updateLayer false 0 0 1 6 2 4 9
       = (((DeferredLayerUpdater.updateTexImage^[2] dlu0).updateLayer
             true 11 12 0 5 1 3 8).1, 0)) :=
  ⟨by decide,
   updateTexImage_then_updateLayer_once dlu0 2 (by decide) true 11 12 0 5 1 3 8
     false 0 0 1 6 2 4 9⟩

/-- Claim C2: `onContextDestroyed` followed by `destroyLayer` does not
release the backing render-target layer twice and does not clear any
slot-cache texture handle twice: the second teardown call leaves the state
(including every ghost release log) exactly as the first left it. -/
theorem onContextDestroyed_then_destroyLayer_no_double_free (s : DeferredLayerUpdater) :
    s.onContextDestroyed.destroyLayer = s.onContextDestroyed ∧
    s.onContextDestroyed.destroyLayer.ghostFreedHandles
      = s.onContextDestroyed.ghostFreedHandles ∧
    s.onContextDestroyed.destroyLayer.ghostLayerFrees
      = s.onContextDestroyed.ghostLayerFrees := by
  refine ⟨?_, ?_, ?_⟩ <;>
    simp [DeferredLayerUpdater.onContextDestroyed, DeferredLayerUpdater.destroyLayer]

/-- Claim C3: `ImageSlot::createIfNeeded` with a buffer identity and
dataspace equal to the cached ones and `forceCreate = false` returns the
already-cached image, allocating nothing and releasing nothing; with a
differing buffer identity, a differing dataspace, or `forceCreate = true`,
it releases the previously cached handle exactly once and creates a new
handle bound to the given GPU context; and it never leaks the previous
handle (the old handle is either still cached or in the released list). -/
theorem createIfNeeded_cache_policy (sl : ImageSlot) (b : Nat) (d : Int) (force : Bool)
    (c fid : Nat) (h : TextureHandle) :
    (sl.mTextureRelease = some h → sl.mBuffer = some b → sl.mDataspace = d →
        sl.createIfNeeded b d false c fid = (sl, h, [])) ∧
    (sl.mTextureRelease = some h →
        (sl.mBuffer ≠ some b ∨ sl.mDataspace ≠ d ∨ force = true) →
        (sl.createIfNeeded b d force c fid).1.mTextureRelease = some ⟨fid, c⟩ ∧
        (sl.createIfNeeded b d force c fid).2.1 = ⟨fid, c⟩ ∧
        (sl.createIfNeeded b d force c fid).2.2 = [h]) ∧
    (sl.mTextureRelease = some h →
        (sl.createIfNeeded b d force c fid).1.mTextureRelease = some h ∨
          h ∈ (sl.createIfNeeded b d force c fid).2.2) := by
  refine ⟨?_, ?_, ?_⟩
  · intro h1 h2 h3
    simp [ImageSlot.createIfNeeded, h1, h2, h3]
  · intro h1 h2
    have hc : ¬(sl.mBuffer = some b ∧ sl.mDataspace = d ∧ force = false) := by
      rcases h2 with h2 | h2 | h2 <;> simp [h2]
    simp [ImageSlot.createIfNeeded, h1, hc]
  · intro h1
    by_cases hc : sl.mBuffer = some b ∧ sl.mDataspace = d ∧ force = false
    · left
      simp [ImageSlot.createIfNeeded, h1, hc]
    · right
      simp [ImageSlot.createIfNeeded, h1, hc]

/-- Witness for C3: on the concrete slot `slA`, a matching call returns the
cached handle with no release, and a forced call releases it exactly once. -/
theorem createIfNeeded_cache_policy_witness :
    slA.createIfNeeded 5 1 false 3 8 = (slA, ⟨7, 3⟩, []) ∧
    (slA.createIfNeeded 5 1 true 3 8).2.2 = [⟨7, 3⟩] :=
  ⟨(createIfNeeded_cache_policy slA 5 1 false 3 8 ⟨7, 3⟩).1 rfl rfl rfl,
   ((createIfNeeded_cache_policy slA 5 1 true 3 8 ⟨7, 3⟩).2.1 rfl
       (Or.inr (Or.inr rfl))).2.2⟩

/-- Claim C4: `detachSurfaceTexture` is idempotent: for every updater
state, calling it twice in a row produces the same end state (ghost
release logs included, so no resource is released twice) as calling it
once. -/
theorem detachSurfaceTexture_idempotent (s : DeferredLayerUpdater) :
    s.detachSurfaceTexture.detachSurfaceTexture = s.detachSurfaceTexture := by
  by_cases h : s.mCurrentSlot = -1
  · simp [DeferredLayerUpdater.detachSurfaceTexture, h]
  · cases hl : slotLookup s.mImageSlots s.mCurrentSlot with
    | none => simp [DeferredLayerUpdater.detachSurfaceTexture, h, hl]
    | some sl =>
      simp [DeferredLayerUpdater.detachSurfaceTexture, h, hl,
        slotLookup_slotInsert_self, clear_of_none, clear_fst_mTextureRelease,
        releaseQueueOwnership_of_none, slotInsert_slotInsert]

/-- Claim C5: `setSize` returns true iff the width/height pair differs from
the stored one, `setBlend` returns true iff the argument differs from the
stored blend flag, and calling either setter again with the same value
returns false the second time. -/
theorem setSize_setBlend_return_iff_changed (s : DeferredLayerUpdater) (w h : Int)
    (b : Bool) :
    ((s.setSize w h).2 = true ↔ (s.mWidth ≠ w ∨ s.mHeight ≠ h)) ∧
    ((s.setBlend b).2 = true ↔ b ≠ s.mBlend) ∧
    ((s.setSize w h).1.setSize w h).2 = false ∧
    ((s.setBlend b).1.setBlend b).2 = false := by
  unfold DeferredLayerUpdater.setSize DeferredLayerUpdater.setBlend
  refine ⟨?_, ?_, ?_, ?_⟩
  · split <;> simp_all
  · split <;> simp_all
  · split <;> simp_all
  · split <;> simp_all

/-- Claim C6: `setTransform` replaces the exclusively-owned transform
wholesale: the stored transform becomes exactly the argument (a copy when
non-null, null when null), the previously stored matrix is appended to the
deletion log on every call, and `setTransform(M1)` followed by
`setTransform(nullptr)` leaves no transform with M1 deleted exactly once
(it is the single new entry of the deletion log). -/
theorem setTransform_replaces_and_releases (s : DeferredLayerUpdater) (m : Nat)
    (mat : Option Nat) :
    (s.setTransform mat).mTransform = mat ∧
    (s.setTransform mat).ghostFreedTransforms
      = s.ghostFreedTransforms ++ s.mTransform.toList ∧
    ((s.setTransform (some m)).setTransform none).mTransform = none ∧
    ((s.setTransform (some m)).setTransform none).ghostFreedTransforms
      = s.ghostFreedTransforms ++ s.mTransform.toList ++ [m] := by
  refine ⟨rfl, rfl, rfl, rfl⟩

/-- Claim C7: `updateTexImage()` is idempotent before the flag is
consumed: any positive number of consecutive calls equals a single call,
the single call sets `mUpdateTexImage` to true, and it changes no other
field (the result is the input state with only `mUpdateTexImage`
replaced). -/
theorem updateTexImage_flag_only_idempotent (s : DeferredLayerUpdater) (n : Nat)
    (h : 1 ≤ n) :
    DeferredLayerUpdater.updateTexImage^[n] s = s.updateTexImage ∧
    s.updateTexImage.mUpdateTexImage = true ∧
    s.updateTexImage = { s with mUpdateTexImage := true } :=
  ⟨updateTexImage_iterate n s h, rfl, rfl⟩

/-- Witness for C7: three consecutive calls on the concrete state `dlu0`. -/
theorem updateTexImage_flag_only_idempotent_witness :
    1 ≤ 3 ∧
    (DeferredLayerUpdater.updateTexImage^[3] dlu0 = dlu0.updateTexImage ∧
     dlu0.updateTexImage.mUpdateTexImage = true ∧
     dlu0.updateTexImage = { dlu0 with mUpdateTexImage := true }) :=
  ⟨by decide, updateTexImage_flag_only_idempotent dlu0 3 (by decide)⟩

/-- Claim C8: `setSize` and `setBlend` have no side effects beyond their
own fields: the state returned by `setSize` is the input state with only
`mWidth` and `mHeight` replaced, and the state returned by `setBlend` is
the input state with only `mBlend` replaced; every other field (transform,
color filter, alpha, blend mode, surface texture, slot cache,
pending-update flag, layer, and the ghost logs) is untouched. -/
theorem setSize_setBlend_no_other_effects (s : DeferredLayerUpdater) (w h : Int)
    (b : Bool) :
    (s.setSize w h).1
      = { s with
          mWidth := (s.setSize w h).1.mWidth
          mHeight := (s.setSize w h).1.mHeight } ∧
    (s.setBlend b).1 = { s with mBlend := (s.setBlend b).1.mBlend } := by
  unfold DeferredLayerUpdater.setSize DeferredLayerUpdater.setBlend
  constructor
  · split <;> rfl
  · split <;> rfl

/-- Claim C9, counterexample: the claim "for every 32-bit flags word,
`setJavaFlags(flags)` followed by `getJavaFlags()` returns the original
flags word" fails at the concrete word 0x200, a bit no legacy flag
constant occupies: the round trip drops it. -/
theorem getJavaFlags_setJavaFlags_counterexample :
    getJavaFlags (setJavaFlags defaultJavaFlagsState 0x200) ≠ 0x200 := by decide

/-- Claim C9, amended: for every flags word and every starting paint
state, `setJavaFlags(flags)` followed by `getJavaFlags()` returns the
flags word masked to the eleven supported legacy bits (0xDFF); in
particular the original word is returned exactly when it carries no
unsupported bits. -/
theorem setJavaFlags_getJavaFlags_masked (p : JavaFlagsState) (f : Nat) :
    getJavaFlags (setJavaFlags p f) = f &&& supportedJavaFlagsMask ∧
    (getJavaFlags (setJavaFlags p f) = f ↔ f &&& supportedJavaFlagsMask = f) := by
  refine ⟨javaFlagsRoundTripMasked p f, ?_⟩
  rw [javaFlagsRoundTripMasked p f]

/-- Claim C10: `Paint` equality ignores the shader: two paints that agree
on all fields compared by `operator==` (the SkPaint base, font, looper,
letter/word spacing, font-feature settings, locale list id, family
variant, hyphen edit, typeface, align, strike-through, underline,
dev-kern) compare equal, with no condition on their `mShader` fields. -/
theorem paint_eqOp_ignores_shader (a b : Paint)
    (h1 : a.skPaintBase = b.skPaintBase) (h2 : a.mFont = b.mFont)
    (h3 : a.mLooper = b.mLooper) (h4 : a.mLetterSpacing = b.mLetterSpacing)
    (h5 : a.mWordSpacing = b.mWordSpacing)
    (h6 : a.mFontFeatureSettings = b.mFontFeatureSettings)
    (h7 : a.mMinikinLocaleListId = b.mMinikinLocaleListId)
    (h8 : a.mFamilyVariant = b.mFamilyVariant) (h9 : a.mHyphenEdit = b.mHyphenEdit)
    (h10 : a.mTypeface = b.mTypeface) (h11 : a.mAlign = b.mAlign)
    (h12 : a.mStrikeThru = b.mStrikeThru) (h13 : a.mUnderline = b.mUnderline)
    (h14 : a.mDevKern = b.mDevKern) :
    Paint.eqOp a b = true := by
  simp [Paint.eqOp, h1, h2, h3, h4, h5, h6, h7, h8, h9, h10, h11, h12, h13, h14]

/-- Witness for C10: `paintA` and `paintB` differ in `mShader` yet compare
equal. -/
theorem paint_eqOp_ignores_shader_witness :
    paintA.mShader ≠ paintB.mShader ∧ Paint.eqOp paintA paintB = true :=
  ⟨by decide,
   paint_eqOp_ignores_shader paintA paintB rfl rfl rfl rfl rfl rfl rfl rfl rfl rfl rfl
     rfl rfl rfl⟩
